import Mathlib

/-!
Verification of the ESI documents backend against its specification.

The definitions below are a shallow embedding of the Django application:
database tables become lists of records, viewset / serializer methods become
pure functions from state to state paired with the HTTP response they
produce, and library collaborators (the signed-token generator, the email
transport) are passed in as explicit parameters.  Dates are reduced to the
components the code actually inspects (the calendar year for the reference
allocator, an integer timestamp for ordering).  ASCII apostrophes occurring
inside the French message strings of the source are transcribed as the
typographic apostrophe.
-/

/-- Roles of `CustomUser.ROLE_CHOICES` (apps/accounts/models.py). -/
inductive Role
  | ADMIN
  | RH
  | SG
deriving DecidableEq, Repr

/-- A DRF response, reduced to the status code and the `detail` message. -/
structure HttpResponse where
  status : Nat
  detail : String
deriving DecidableEq, Repr

/-- `CustomUser` (apps/accounts/models.py): email-keyed account with a role,
an active flag and an optional one-time temporary password.  The stored
password hash is modelled as the plain string (`set_password` stores it,
`check_password` compares against it). -/
structure User where
  id : Nat
  email : String
  first_name : String
  last_name : String
  role : Role
  is_active : Bool
  password : String
  temp_password : Option String
deriving DecidableEq, Repr

/-- `user.save()` after mutating the row with primary key `uid`:
every stored row with that id is replaced by `f` applied to it. -/
def updateUser (users : List User) (uid : Nat) (f : User → User) : List User :=
  users.map (fun u => if u.id == uid then f u else u)

/-- Python's `f"{n:04d}"`: decimal rendering of `n`, left-padded with zeros
to width 4 (numbers of five or more digits are rendered unpadded). -/
def pad4 (n : Nat) : String :=
  let s := toString n
  if s.length < 4 then String.mk (List.replicate (4 - s.length) '0') ++ s else s

/-- `AttestationTravail` (apps/documents/models.py).  `date_emission` has
`auto_now_add`, and the only component of it the code ever inspects is the
calendar year (`date_emission__year`), kept here as `date_emission_year`. -/
structure AttestationTravail where
  reference : String
  employee : Nat
  date_emission_year : Nat
  emetteur : String
deriving DecidableEq, Repr

/-- `AttestationTravail.objects.filter(date_emission__year=y).count()`. -/
def attCountInYear (db : List AttestationTravail) (y : Nat) : Nat :=
  (db.filter (fun a => a.date_emission_year == y)).length

namespace AttestationTravailViewSet

/-- `AttestationTravailViewSet.perform_create` (apps/documents/views.py):
counts the attestations whose emission year is the current year, formats
`AT-{year}-{count+1:04d}` and saves the new row with that reference.
Returns the new table and the generated reference. -/
def perform_create (db : List AttestationTravail) (todayYear : Nat)
    (employee : Nat) (emetteur : String) :
    List AttestationTravail × String :=
  let existing_count := attCountInYear db todayYear
  let reference := "AT-" ++ toString todayYear ++ "-" ++ pad4 (existing_count + 1)
  (db ++ [{ reference := reference, employee := employee,
            date_emission_year := todayYear, emetteur := emetteur }], reference)

end AttestationTravailViewSet

/-- `OrdreMission` (apps/documents/models.py), reduced to the fields the
claims inspect.  `date_creation` has `auto_now_add`; only its year
(`date_creation__year`) is ever filtered on. -/
structure OrdreMission where
  id : Nat
  reference : String
  missionnaire : Nat
  date_creation_year : Nat
  responsable_emission : String
deriving DecidableEq, Repr

/-- `OrdreMission.objects.filter(date_creation__year=y).count()`. -/
def omCountInYear (db : List OrdreMission) (y : Nat) : Nat :=
  (db.filter (fun o => o.date_creation_year == y)).length

namespace OrdreMissionViewSet

/-- `OrdreMissionViewSet.perform_create` (apps/documents/views.py):
counts the mission orders created in the current year, formats
`OM-{year}-{count+1:04d}` and saves the row with that reference and with
`responsable_emission` overwritten by the acting user's full name. -/
def perform_create (db : List OrdreMission) (todayYear : Nat) (newId : Nat)
    (missionnaire : Nat) (actorFirst actorLast : String) :
    List OrdreMission × String :=
  let existing_count := omCountInYear db todayYear
  let reference := "OM-" ++ toString todayYear ++ "-" ++ pad4 (existing_count + 1)
  (db ++ [{ id := newId, reference := reference, missionnaire := missionnaire,
            date_creation_year := todayYear,
            responsable_emission := actorFirst ++ " " ++ actorLast }], reference)

end OrdreMissionViewSet

/-- A run of `k` consecutive (non-concurrent) attestation creations in year
`y`, returning the final table and the references in creation order. -/
def runAttCreates (db : List AttestationTravail) (y : Nat) : Nat → List AttestationTravail × List String
  | 0 => (db, [])
  | Nat.succ k =>
    let r := AttestationTravailViewSet.perform_create db y 0 "Directeur"
    let rest := runAttCreates r.1 y k
    (rest.1, r.2 :: rest.2)

/-- A run of `k` consecutive (non-concurrent) mission-order creations in year
`y`, returning the final table and the references in creation order. -/
def runOmCreates (db : List OrdreMission) (y : Nat) : Nat → List OrdreMission × List String
  | 0 => (db, [])
  | Nat.succ k =>
    let r := OrdreMissionViewSet.perform_create db y 0 0 "Karima" "Bentaleb"
    let rest := runOmCreates r.1 y k
    (rest.1, r.2 :: rest.2)

theorem attCount_perform_create (db : List AttestationTravail) (y e : Nat) (m : String) :
    attCountInYear (AttestationTravailViewSet.perform_create db y e m).1 y
      = attCountInYear db y + 1 := by
  simp [AttestationTravailViewSet.perform_create, attCountInYear, List.filter_append]

theorem omCount_perform_create (db : List OrdreMission) (y i e : Nat) (f l : String) :
    omCountInYear (OrdreMissionViewSet.perform_create db y i e f l).1 y
      = omCountInYear db y + 1 := by
  simp [OrdreMissionViewSet.perform_create, omCountInYear, List.filter_append]

theorem runAttCreates_nth (y : Nat) :
    ∀ (k N : Nat) (db : List AttestationTravail), N + 1 ≤ k →
      (runAttCreates db y k).2.get? N
        = some ("AT-" ++ toString y ++ "-" ++ pad4 (attCountInYear db y + N + 1)) := by
  intro k
  induction k with
  | zero => intro N db h; omega
  | succ k ih =>
    intro N db h
    cases N with
    | zero =>
      simp [runAttCreates, AttestationTravailViewSet.perform_create]
    | succ n =>
      have hn : n + 1 ≤ k := by omega
      have := ih n (AttestationTravailViewSet.perform_create db y 0 "Directeur").1 hn
      simp only [runAttCreates, List.get?] at *
      rw [this, attCount_perform_create]
      have : attCountInYear db y + 1 + n + 1 = attCountInYear db y + (n + 1) + 1 := by omega
      rw [this]

theorem runOmCreates_nth (y : Nat) :
    ∀ (k N : Nat) (db : List OrdreMission), N + 1 ≤ k →
      (runOmCreates db y k).2.get? N
        = some ("OM-" ++ toString y ++ "-" ++ pad4 (omCountInYear db y + N + 1)) := by
  intro k
  induction k with
  | zero => intro N db h; omega
  | succ k ih =>
    intro N db h
    cases N with
    | zero =>
      simp [runOmCreates, OrdreMissionViewSet.perform_create]
    | succ n =>
      have hn : n + 1 ≤ k := by omega
      have := ih n (OrdreMissionViewSet.perform_create db y 0 0 "Karima" "Bentaleb").1 hn
      simp only [runOmCreates, List.get?] at *
      rw [this, omCount_perform_create]
      have : omCountInYear db y + 1 + n + 1 = omCountInYear db y + (n + 1) + 1 := by omega
      rw [this]

/-- C1: in a non-concurrent run of `k` creations in year `y` starting from a
state with no year-`y` documents, the `N`-th work certificate created receives
reference `AT-y-` followed by `N` zero-padded to 4 digits, the sequence number
being (count of existing certificates of that emission year) + 1; likewise the
`N`-th mission order receives `OM-y-` with the same 1-based sequence computed
from the count of mission orders created that year. -/
theorem c1_reference_sequence (y N k : Nat)
    (dbA : List AttestationTravail) (dbO : List OrdreMission)
    (hA : attCountInYear dbA y = 0) (hO : omCountInYear dbO y = 0)
    (h1 : 1 ≤ N) (hk : N ≤ k) :
    (runAttCreates dbA y k).2.get? (N - 1)
        = some ("AT-" ++ toString y ++ "-" ++ pad4 N) ∧
    (runOmCreates dbO y k).2.get? (N - 1)
        = some ("OM-" ++ toString y ++ "-" ++ pad4 N) := by
  have hA1 := runAttCreates_nth y k (N - 1) dbA (by omega)
  have hO1 := runOmCreates_nth y k (N - 1) dbO (by omega)
  rw [hA, hO] at *
  have hN : 0 + (N - 1) + 1 = N := by omega
  rw [hN] at hA1 hO1
  exact ⟨hA1, hO1⟩

/-- Concrete instance of C1: from empty tables, the second of three creations
in year 2023 is numbered `0002`. -/
theorem c1_reference_sequence_witness :
    attCountInYear [] 2023 = 0 ∧ omCountInYear [] 2023 = 0 ∧
    (runAttCreates [] 2023 3).2.get? 1 = some "AT-2023-0002" ∧
    (runOmCreates [] 2023 3).2.get? 1 = some "OM-2023-0002" := by
  refine ⟨rfl, rfl, ?_, ?_⟩
  · exact (c1_reference_sequence 2023 2 3 [] [] rfl rfl (by decide) (by decide)).1
  · exact (c1_reference_sequence 2023 2 3 [] [] rfl rfl (by decide) (by decide)).2

/-- `EtapeMission` (apps/documents/models.py): one leg of a mission journey.
Timestamps are modelled as integers. -/
structure EtapeMission where
  lieu_depart : String
  lieu_arrivee : String
  date_depart : Int
  date_arrivee : Int
  moyen_transport : String
deriving DecidableEq, Repr

/-- The `etapes` rows of the order with primary key `oid`, as stored in the
leg table (each row pairs the `ordre_mission` foreign key with the leg). -/
def etapesOf (tbl : List (Nat × EtapeMission)) (oid : Nat) : List EtapeMission :=
  (tbl.filter (fun r => r.1 == oid)).map (fun r => r.2)

namespace OrdreMissionSerializer

/-- `OrdreMissionSerializer.update` (apps/documents/serializers.py): pops
`etapes` from the validated data, assigns the remaining scalar fields on the
instance (modelled by `fields`) and saves it; then, only when `etapes` was
present (including the empty list), deletes every existing leg of that order
and inserts the supplied ones in the given order. -/
def update (orders : List OrdreMission) (tbl : List (Nat × EtapeMission))
    (oid : Nat) (fields : OrdreMission → OrdreMission)
    (etapes_data : Option (List EtapeMission)) :
    List OrdreMission × List (Nat × EtapeMission) :=
  let orders1 := orders.map (fun o => if o.id == oid then fields o else o)
  match etapes_data with
  | none => (orders1, tbl)
  | some l => (orders1, tbl.filter (fun r => !(r.1 == oid)) ++ l.map (fun e => (oid, e)))

end OrdreMissionSerializer

theorem etapesOf_delete_insert (tbl : List (Nat × EtapeMission)) (oid : Nat)
    (L : List EtapeMission) :
    etapesOf (tbl.filter (fun r => !(r.1 == oid)) ++ L.map (fun e => (oid, e))) oid = L := by
  simp only [etapesOf, List.filter_append]
  have h1 : (tbl.filter (fun r => !(r.1 == oid))).filter (fun r => r.1 == oid) = [] := by
    rw [List.filter_eq_nil_iff]
    intro a ha
    have := List.of_mem_filter ha
    simp at this ⊢
    exact this
  have h2 : (L.map (fun e => (oid, e))).filter (fun r : Nat × EtapeMission => r.1 == oid)
      = L.map (fun e => (oid, e)) := by
    rw [List.filter_eq_self]
    intro a ha
    simp at ha
    obtain ⟨e, _, he⟩ := ha
    simp [← he]
  rw [h1, h2]
  simp

theorem delete_insert_idem (tbl : List (Nat × EtapeMission)) (oid : Nat)
    (L : List EtapeMission) :
    ((tbl.filter (fun r => !(r.1 == oid)) ++ L.map (fun e => (oid, e))).filter
        (fun r => !(r.1 == oid))) ++ L.map (fun e => (oid, e))
      = tbl.filter (fun r => !(r.1 == oid)) ++ L.map (fun e => (oid, e)) := by
  rw [List.filter_append]
  have h1 : (tbl.filter (fun r => !(r.1 == oid))).filter (fun r => !(r.1 == oid))
      = tbl.filter (fun r => !(r.1 == oid)) := by
    rw [List.filter_eq_self]
    intro a ha
    exact (List.mem_filter.mp ha).2
  have h2 : (L.map (fun e => (oid, e))).filter (fun r : Nat × EtapeMission => !(r.1 == oid))
      = [] := by
    rw [List.filter_eq_nil_iff]
    intro a ha
    simp at ha
    obtain ⟨e, _, he⟩ := ha
    simp [← he]
  rw [h1, h2]
  simp

/-- C2: a mission-order update that supplies a leg list `L` (including the
empty list) leaves the order with exactly the legs `L`, whatever legs existed
before; and applying the same update twice produces the same leg table as
applying it once. -/
theorem c2_replace_all_legs (orders : List OrdreMission)
    (tbl : List (Nat × EtapeMission)) (oid : Nat)
    (fields : OrdreMission → OrdreMission) (L : List EtapeMission) :
    etapesOf (OrdreMissionSerializer.update orders tbl oid fields (some L)).2 oid = L ∧
    (OrdreMissionSerializer.update
        (OrdreMissionSerializer.update orders tbl oid fields (some L)).1
        (OrdreMissionSerializer.update orders tbl oid fields (some L)).2
        oid fields (some L)).2
      = (OrdreMissionSerializer.update orders tbl oid fields (some L)).2 := by
  constructor
  · exact etapesOf_delete_insert tbl oid L
  · exact delete_insert_idem tbl oid L

namespace UserViewSet

/-- `UserViewSet.get_queryset` (apps/accounts/views.py): all users for an
ADMIN actor, otherwise only the rows whose id is the actor's own id. -/
def get_queryset (users : List User) (actor : User) : List User :=
  if actor.role = Role.ADMIN then users
  else users.filter (fun u => u.id == actor.id)

/-- DRF `get_object` for the user viewset: looks the primary key up inside
`get_queryset`; `none` is surfaced as a 404 not-found.  `retrieve`, `update`,
`partial_update` and `destroy` all resolve their target through it. -/
def get_object (users : List User) (actor : User) (pk : Nat) : Option User :=
  (get_queryset users actor).find? (fun u => u.id == pk)

/-- `UserViewSet.create` (apps/accounts/views.py) composed with
`UserCreateSerializer.create`: non-ADMIN actors are rejected with 403 before
anything is saved; for an ADMIN the serializer stores a new user whose
password and `temp_password` are a generated temporary password (the random
generator is modelled by the `temp` parameter, the database-assigned primary
key by `newId`).  The welcome email may fail; the exception is caught and
only printed, so it affects neither the state nor the response. -/
def create (users : List User) (actor : User) (newId : Nat)
    (email first_name last_name : String) (role : Role) (temp : String) :
    List User × HttpResponse :=
  if ¬ actor.role = Role.ADMIN then
    (users, ⟨403, "Vous n’avez pas la permission de créer des utilisateurs."⟩)
  else
    (users ++ [{ id := newId, email := email, first_name := first_name,
                 last_name := last_name, role := role, is_active := true,
                 password := temp, temp_password := some temp }],
     ⟨201, "Utilisateur créé avec succès et email envoyé avec le mot de passe."⟩)

/-- `change_password` (apps/accounts/views.py): resolves the target user,
rejects an actor who is neither the target nor an ADMIN, lets an ADMIN set
another user's password without the old one (and without touching
`temp_password`), and otherwise verifies the old password before storing the
new one and clearing `temp_password`. -/
def change_password (users : List User) (actor : User) (pk : Nat)
    (old_password new_password : String) : List User × HttpResponse :=
  match get_object users actor pk with
  | none => (users, ⟨404, "No User matches the given query."⟩)
  | some user =>
    if actor.id ≠ user.id ∧ actor.role ≠ Role.ADMIN then
      (users, ⟨403, "Vous n’avez pas la permission de changer ce mot de passe."⟩)
    else if actor.role = Role.ADMIN ∧ actor.id ≠ user.id then
      (updateUser users user.id (fun u => { u with password := new_password }),
       ⟨200, "Mot de passe changé avec succès."⟩)
    else if user.password = old_password then
      (updateUser users user.id
          (fun u => { u with password := new_password, temp_password := none }),
       ⟨200, "Mot de passe changé avec succès."⟩)
    else
      (users, ⟨400, "Mot de passe incorrect."⟩)

end UserViewSet

/-- C6: an authenticated actor whose role is not ADMIN who attempts to create
a user receives a 403 authorization rejection and the user table is
unchanged. -/
theorem c6_non_admin_create_rejected (users : List User) (actor : User)
    (newId : Nat) (email first_name last_name : String) (role : Role)
    (temp : String) (h : actor.role ≠ Role.ADMIN) :
    (UserViewSet.create users actor newId email first_name last_name role temp).1
        = users ∧
    (UserViewSet.create users actor newId email first_name last_name role temp).2.status
        = 403 := by
  simp [UserViewSet.create, h]

/-- Concrete instance of C6: an RH actor cannot create a user. -/
theorem c6_non_admin_create_rejected_witness :
    Role.RH ≠ Role.ADMIN ∧
    (UserViewSet.create [] ⟨1, "rh@esi.dz", "Rima", "Hadj", Role.RH, true, "pw", none⟩
        2 "new@esi.dz" "Nora" "Adel" Role.SG "tmp").1 = [] := by
  exact ⟨by decide, (c6_non_admin_create_rejected []
    ⟨1, "rh@esi.dz", "Rima", "Hadj", Role.RH, true, "pw", none⟩
    2 "new@esi.dz" "Nora" "Adel" Role.SG "tmp" (by decide)).1⟩

theorem filter_own_id_eq_self (actor : User) :
    ∀ (users : List User), actor ∈ users → (users.map User.id).Nodup →
      users.filter (fun u => u.id == actor.id) = [actor] := by
  intro users
  induction users with
  | nil => intro h; cases h
  | cons u t ih =>
    intro hmem hnd
    rw [List.map_cons, List.nodup_cons] at hnd
    obtain ⟨hid, hnd'⟩ := hnd
    rcases List.mem_cons.mp hmem with h | h
    · subst h
      have ht : t.filter (fun u => u.id == actor.id) = [] := by
        rw [List.filter_eq_nil_iff]
        intro a ha
        simp only [beq_iff_eq]
        intro hEq
        exact hid (hEq ▸ List.mem_map_of_mem User.id ha)
      simp [List.filter_cons, ht]
    · have hne : ¬ (u.id == actor.id) = true := by
        simp only [beq_iff_eq]
        intro hEq
        exact hid (hEq ▸ List.mem_map_of_mem User.id h)
      simp [List.filter_cons, hne, ih h hnd']

/-- C10: for a non-ADMIN actor whose own record is stored (primary keys being
unique), the user listing is exactly the actor's own record, and resolving any
other primary key through `get_object` — as `retrieve`, `update` and `destroy`
do — yields not-found; an ADMIN actor's listing is the whole user table. -/
theorem c10_queryset_scoping (users : List User) (actor admin : User) (pk : Nat)
    (hrole : actor.role ≠ Role.ADMIN) (hmem : actor ∈ users)
    (hnodup : (users.map User.id).Nodup) (hpk : pk ≠ actor.id)
    (hadmin : admin.role = Role.ADMIN) :
    UserViewSet.get_queryset users actor = [actor] ∧
    UserViewSet.get_object users actor pk = none ∧
    UserViewSet.get_queryset users admin = users := by
  have hq : UserViewSet.get_queryset users actor = [actor] := by
    rw [UserViewSet.get_queryset, if_neg hrole]
    exact filter_own_id_eq_self actor users hmem hnodup
  refine ⟨hq, ?_, ?_⟩
  · rw [UserViewSet.get_object, hq]
    have : (actor.id == pk) = false := by
      simp only [beq_eq_false_iff_ne]
      exact fun h => hpk h.symm
    simp [List.find?_cons, this]
  · rw [UserViewSet.get_queryset, if_pos hadmin]

/-- Concrete instance of C10: with an admin (id 0) and an RH user (id 1)
stored, the RH user lists only their own record and cannot resolve id 0,
while the admin lists both records. -/
theorem c10_queryset_scoping_witness :
    UserViewSet.get_queryset
        [⟨0, "admin@esi.dz", "Ali", "Brahimi", Role.ADMIN, true, "apw", none⟩,
         ⟨1, "rh@esi.dz", "Rima", "Hadj", Role.RH, true, "pw", none⟩]
        ⟨1, "rh@esi.dz", "Rima", "Hadj", Role.RH, true, "pw", none⟩
      = [⟨1, "rh@esi.dz", "Rima", "Hadj", Role.RH, true, "pw", none⟩] ∧
    UserViewSet.get_object
        [⟨0, "admin@esi.dz", "Ali", "Brahimi", Role.ADMIN, true, "apw", none⟩,
         ⟨1, "rh@esi.dz", "Rima", "Hadj", Role.RH, true, "pw", none⟩]
        ⟨1, "rh@esi.dz", "Rima", "Hadj", Role.RH, true, "pw", none⟩ 0
      = none := by
  have h := c10_queryset_scoping
      [⟨0, "admin@esi.dz", "Ali", "Brahimi", Role.ADMIN, true, "apw", none⟩,
       ⟨1, "rh@esi.dz", "Rima", "Hadj", Role.RH, true, "pw", none⟩]
      ⟨1, "rh@esi.dz", "Rima", "Hadj", Role.RH, true, "pw", none⟩
      ⟨0, "admin@esi.dz", "Ali", "Brahimi", Role.ADMIN, true, "apw", none⟩
      0 (by decide) (by decide) (by decide) (by decide) rfl
  exact ⟨h.1, h.2.1⟩

/-- Python's `s.split(c, 1)` restricted to the first occurrence: `none` when
`c` does not occur in `s` (the view guards this case with `'-' not in
combined_token`), otherwise the characters before and after the first
occurrence. -/
def breakAtChar (c : Char) : List Char → Option (List Char × List Char)
  | [] => none
  | x :: xs =>
    if x == c then some ([], xs)
    else
      match breakAtChar c xs with
      | none => none
      | some (pre, post) => some (x :: pre, post)

/-- Decoder for the uid half of the combined reset token.  The source encodes
the primary key with `urlsafe_base64_encode(force_bytes(user.pk))` and decodes
it back with `urlsafe_base64_decode`; that injective round-trip is modelled as
a decimal rendering of the key, and a malformed encoding decodes to `none`
(the `ValueError` path of the view). -/
def decodeUid (s : String) : Option Nat :=
  let rec go : List Char → Nat → Option Nat
    | [], acc => some acc
    | c :: cs, acc =>
      if '0' ≤ c ∧ c ≤ '9' then go cs (acc * 10 + (c.toNat - '0'.toNat))
      else none
  match s.data with
  | [] => none
  | l => go l 0

namespace PasswordResetConfirmView

/-- `PasswordResetConfirmView.post` (apps/accounts/views.py).  The signed
token check `default_token_generator.check_token(user, token)` is a library
collaborator and is passed in as the oracle `checkToken`.  Branches, in
source order: missing `-` → 400 invalid format; undecodable uid → 400 format
error (`ValueError` handler); unknown primary key → 400 user not found
(`User.DoesNotExist` handler); failed token check → 400 invalid/expired;
otherwise the new password is stored, `temp_password` is cleared and 200 is
returned. -/
def post (checkToken : Nat → String → Bool) (users : List User)
    (combined_token new_password : String) : List User × HttpResponse :=
  match breakAtChar '-' combined_token.data with
  | none => (users, ⟨400, "Format de jeton invalide."⟩)
  | some (pre, post) =>
    match decodeUid (String.mk pre) with
    | none => (users, ⟨400, "Erreur de format: invalid uid."⟩)
    | some user_id =>
      match users.find? (fun u => u.id == user_id) with
      | none => (users, ⟨400, "Utilisateur non trouvé."⟩)
      | some _ =>
        if checkToken user_id (String.mk post) then
          (updateUser users user_id
              (fun u => { u with password := new_password, temp_password := none }),
           ⟨200, "Mot de passe réinitialisé avec succès."⟩)
        else
          (users, ⟨400, "Le jeton de réinitialisation est invalide ou a expiré."⟩)

end PasswordResetConfirmView

namespace PasswordResetRequestView

/-- `PasswordResetRequestView.post` (apps/accounts/views.py): for a stored
email it generates and mails a combined token, answering 200 on delivery and
500 when the mail transport fails (`emailOk` models the transport outcome);
for an unknown email it answers 200 with a hedged message.  The state is
never modified. -/
def post (emailOk : Bool) (users : List User) (email : String) : HttpResponse :=
  match users.find? (fun u => u.email == email) with
  | some _ =>
    if emailOk then
      ⟨200, "Instructions de réinitialisation envoyées à votre adresse email."⟩
    else
      ⟨500, "Erreur lors de l’envoi de l’email. Veuillez réessayer plus tard."⟩
  | none =>
    ⟨200, "Si l’adresse existe, les instructions de réinitialisation ont été envoyées."⟩

end PasswordResetRequestView

/-- Demo account with the ADMIN role. -/
def demoAdmin : User :=
  ⟨0, "admin@esi.dz", "Ali", "Brahimi", Role.ADMIN, true, "apw", none⟩

/-- Demo account that still carries its generated temporary password. -/
def demoBob : User :=
  ⟨1, "bob@esi.dz", "Bachir", "Othmani", Role.RH, true, "temp123", some "temp123"⟩

/-- Demo user table. -/
def demoUsers : List User := [demoAdmin, demoBob]

theorem updateUser_sets_pw_temp (users : List User) (uid : Nat) (nw : String) :
    ∀ u ∈ updateUser users uid
        (fun v => { v with password := nw, temp_password := none }),
      u.id = uid → u.password = nw ∧ u.temp_password = none := by
  intro u hu hid
  rw [updateUser] at hu
  obtain ⟨v, hv, hvu⟩ := List.mem_map.mp hu
  by_cases h : (v.id == uid) = true
  · rw [if_pos h] at hvu
    rw [← hvu]
    exact ⟨rfl, rfl⟩
  · rw [if_neg h] at hvu
    subst hvu
    exact absurd (beq_iff_eq.mpr hid) h

theorem updateUser_keeps_temp (uid : Nat) (nw : String) :
    ∀ (users : List User),
      (updateUser users uid (fun v => { v with password := nw })).map User.temp_password
        = users.map User.temp_password := by
  intro users
  induction users with
  | nil => rfl
  | cons u t ih =>
    by_cases h : (u.id == uid) = true
    · simp only [updateUser, List.map_cons, if_pos h] at *
      rw [ih]
    · simp only [updateUser, List.map_cons, if_neg h] at *
      rw [ih]

/-- C3 counterexample: an admin changes another user's password (a defined
operation that sets a real password); the call succeeds with 200 and stores
the new password, yet the target's `temp_password` is NOT cleared. -/
theorem c3_counterexample :
    (UserViewSet.change_password demoUsers demoAdmin 1 "x" "newpw").2.status = 200 ∧
    ((UserViewSet.change_password demoUsers demoAdmin 1 "x" "newpw").1.find?
        (fun u => u.id == 1)).map User.password = some "newpw" ∧
    ((UserViewSet.change_password demoUsers demoAdmin 1 "x" "newpw").1.find?
        (fun u => u.id == 1)).map User.temp_password = some (some "temp123") := by
  decide

/-- C3 amended: the temporary password is cleared when a real password is set
through the self-service password change or through a password-reset
confirmation; the admin-initiated change of another user's password sets the
real password but leaves `temp_password` untouched. -/
theorem c3_temp_password_clearing :
    (∀ (users : List User) (actor : User) (old_password new_password : String),
      (UserViewSet.change_password users actor actor.id old_password new_password).2.status
          = 200 →
      ∀ u ∈ (UserViewSet.change_password users actor actor.id old_password new_password).1,
        u.id = actor.id → u.password = new_password ∧ u.temp_password = none) ∧
    (∀ (checkToken : Nat → String → Bool) (users : List User)
        (combined_token new_password : String) (pre post : List Char) (uid : Nat),
      breakAtChar '-' combined_token.data = some (pre, post) →
      decodeUid (String.mk pre) = some uid →
      (PasswordResetConfirmView.post checkToken users combined_token new_password).2.status
          = 200 →
      ∀ u ∈ (PasswordResetConfirmView.post checkToken users combined_token new_password).1,
        u.id = uid → u.password = new_password ∧ u.temp_password = none) ∧
    (∀ (users : List User) (actor : User) (pk : Nat) (old_password new_password : String),
      actor.role = Role.ADMIN → pk ≠ actor.id →
      (UserViewSet.change_password users actor pk old_password new_password).1.map
          User.temp_password
        = users.map User.temp_password) := by
  refine ⟨?_, ?_, ?_⟩
  · intro users actor old_password new_password h200 u hu hid
    cases hfind : UserViewSet.get_object users actor actor.id with
    | none =>
      simp only [UserViewSet.change_password, hfind] at h200
      simp at h200
    | some user =>
      have huid : user.id = actor.id := by
        have := List.find?_some hfind
        exact beq_iff_eq.mp this
      have h1 : ¬ (actor.id ≠ user.id ∧ actor.role ≠ Role.ADMIN) :=
        fun h => h.1 huid.symm
      have h2 : ¬ (actor.role = Role.ADMIN ∧ actor.id ≠ user.id) :=
        fun h => h.2 huid.symm
      simp only [UserViewSet.change_password, hfind, if_neg h1, if_neg h2] at h200 hu
      by_cases hpw : user.password = old_password
      · rw [if_pos hpw] at hu
        exact updateUser_sets_pw_temp users user.id new_password u hu (huid ▸ hid)
      · rw [if_neg hpw] at h200
        simp at h200
  · intro checkToken users combined_token new_password pre post uid hparse hdec h200 u hu hid
    simp only [PasswordResetConfirmView.post, hparse, hdec] at h200 hu
    cases hfind : users.find? (fun u => u.id == uid) with
    | none =>
      rw [hfind] at h200
      simp at h200
    | some user =>
      rw [hfind] at h200 hu
      by_cases hok : checkToken uid (String.mk post) = true
      · simp only [if_pos hok] at hu
        exact updateUser_sets_pw_temp users uid new_password u hu hid
      · simp only [if_neg hok] at h200
        simp at h200
  · intro users actor pk old_password new_password hrole hpk
    cases hfind : UserViewSet.get_object users actor pk with
    | none => simp only [UserViewSet.change_password, hfind]
    | some user =>
      have huid : user.id = pk := by
        have := List.find?_some hfind
        exact beq_iff_eq.mp this
      have h1 : ¬ (actor.id ≠ user.id ∧ actor.role ≠ Role.ADMIN) :=
        fun h => h.2 hrole
      have h2 : actor.role = Role.ADMIN ∧ actor.id ≠ user.id :=
        ⟨hrole, fun h => hpk (huid ▸ h.symm)⟩
      simp only [UserViewSet.change_password, hfind, if_neg h1, if_pos h2]
      exact updateUser_keeps_temp user.id new_password users

/-- Concrete instance of the amended C3: a self-service change by the demo
user clears the temporary password, and the admin-initiated change leaves the
table's temporary passwords untouched. -/
theorem c3_temp_password_clearing_witness :
    (∀ u ∈ (UserViewSet.change_password demoUsers demoBob 1 "temp123" "fresh").1,
      u.id = 1 → u.password = "fresh" ∧ u.temp_password = none) ∧
    (UserViewSet.change_password demoUsers demoAdmin 1 "x" "newpw").1.map
        User.temp_password = demoUsers.map User.temp_password := by
  constructor
  · have h := c3_temp_password_clearing.1 demoUsers demoBob "temp123" "fresh" (by decide)
    intro u hu hid
    exact h u hu hid
  · exact c3_temp_password_clearing.2.2 demoUsers demoAdmin 1 "x" "newpw" rfl (by decide)

/-- C7: a password-reset confirmation whose combined token is invalid for the
user it designates — expired or tampered (the signed check fails), malformed
(no `-`, undecodable uid) or referring to a missing account — is rejected
with 400 and leaves the user table, hence every stored password, unchanged. -/
theorem c7_invalid_token_rejected (checkToken : Nat → String → Bool)
    (users : List User) (combined_token new_password : String)
    (hbad : ∀ pre post : List Char,
      breakAtChar '-' combined_token.data = some (pre, post) →
      ∀ uid : Nat, decodeUid (String.mk pre) = some uid →
        checkToken uid (String.mk post) = false) :
    (PasswordResetConfirmView.post checkToken users combined_token new_password).1
        = users ∧
    (PasswordResetConfirmView.post checkToken users combined_token new_password).2.status
        = 400 := by
  cases hparse : breakAtChar '-' combined_token.data with
  | none => simp [PasswordResetConfirmView.post, hparse]
  | some pp =>
    obtain ⟨pre, post⟩ := pp
    cases hdec : decodeUid (String.mk pre) with
    | none => simp [PasswordResetConfirmView.post, hparse, hdec]
    | some uid =>
      have hck : checkToken uid (String.mk post) = false := hbad pre post hparse uid hdec
      cases hfind : users.find? (fun u => u.id == uid) with
      | none => simp [PasswordResetConfirmView.post, hparse, hdec, hfind]
      | some user => simp [PasswordResetConfirmView.post, hparse, hdec, hfind, hck]

/-- Concrete instance of C7: with a token generator that rejects everything,
confirming against the demo table with token `1-forged` changes nothing and
answers 400. -/
theorem c7_invalid_token_rejected_witness :
    (PasswordResetConfirmView.post (fun _ _ => false) demoUsers "1-forged" "np").1
        = demoUsers ∧
    (PasswordResetConfirmView.post (fun _ _ => false) demoUsers "1-forged" "np").2.status
        = 400 :=
  c7_invalid_token_rejected (fun _ _ => false) demoUsers "1-forged" "np"
    (fun _ _ _ _ _ => rfl)

/-- C5 counterexample: in the confirm view, a token designating a missing
account (uid 2 is not stored) yields the response `Utilisateur non trouvé.`,
while an invalid token on an existing account (uid 1) yields `Le jeton de
réinitialisation est invalide ou a expiré.` — the two failures are
distinguishable; likewise the request view answers an existing email and an
unknown email with different messages. -/
theorem c5_counterexample :
    (PasswordResetConfirmView.post (fun _ _ => false) demoUsers "2-tok" "np").2
        ≠ (PasswordResetConfirmView.post (fun _ _ => false) demoUsers "1-tok" "np").2 ∧
    PasswordResetRequestView.post true demoUsers "bob@esi.dz"
        ≠ PasswordResetRequestView.post true demoUsers "nobody@esi.dz" := by
  decide

/-- C5 amended: both failure classes of the confirm view share status 400,
but the bodies differ and reveal account existence: a token whose uid decodes
to a missing account is answered with `Utilisateur non trouvé.`, a failed
signed-token check on an existing account with the invalid/expired message;
the request view answers 200 for an unknown email yet with a different
message than for a stored email. -/
theorem c5_enumeration_leak (checkToken : Nat → String → Bool)
    (users : List User) (ct1 ct2 np : String) (pre1 post1 pre2 post2 : List Char)
    (uid1 uid2 : Nat) (email : String)
    (hp1 : breakAtChar '-' ct1.data = some (pre1, post1))
    (hd1 : decodeUid (String.mk pre1) = some uid1)
    (hmissing : users.find? (fun u => u.id == uid1) = none)
    (hp2 : breakAtChar '-' ct2.data = some (pre2, post2))
    (hd2 : decodeUid (String.mk pre2) = some uid2)
    (hfound : (users.find? (fun u => u.id == uid2)).isSome = true)
    (hck : checkToken uid2 (String.mk post2) = false)
    (hnomail : users.find? (fun u => u.email == email) = none) :
    (PasswordResetConfirmView.post checkToken users ct1 np).2
        = ⟨400, "Utilisateur non trouvé."⟩ ∧
    (PasswordResetConfirmView.post checkToken users ct2 np).2
        = ⟨400, "Le jeton de réinitialisation est invalide ou a expiré."⟩ ∧
    PasswordResetRequestView.post true users email
        = ⟨200, "Si l’adresse existe, les instructions de réinitialisation ont été envoyées."⟩ := by
  refine ⟨?_, ?_, ?_⟩
  · simp [PasswordResetConfirmView.post, hp1, hd1, hmissing]
  · cases hfind : users.find? (fun u => u.id == uid2) with
    | none => rw [hfind] at hfound; simp at hfound
    | some user => simp [PasswordResetConfirmView.post, hp2, hd2, hfind, hck]
  · simp [PasswordResetRequestView.post, hnomail]

/-- Concrete instance of the amended C5, on the demo table. -/
theorem c5_enumeration_leak_witness :
    (PasswordResetConfirmView.post (fun _ _ => false) demoUsers "2-tok" "np").2
        = ⟨400, "Utilisateur non trouvé."⟩ ∧
    (PasswordResetConfirmView.post (fun _ _ => false) demoUsers "1-tok" "np").2
        = ⟨400, "Le jeton de réinitialisation est invalide ou a expiré."⟩ := by
  have h := c5_enumeration_leak (fun _ _ => false) demoUsers "2-tok" "1-tok" "np"
    ['2'] ['t', 'o', 'k'] ['1'] ['t', 'o', 'k'] 2 1 "nobody@esi.dz"
    (by decide) (by decide) (by decide) (by decide) (by decide) (by decide) rfl
    (by decide)
  exact ⟨h.1, h.2.1⟩

/-- `Notification` (apps/accounts/models.py): recipient, message, immutable
creation timestamp (modelled as an integer) and a read flag. -/
structure Notification where
  id : Nat
  user : Nat
  message : String
  date_created : Int
  is_read : Bool
deriving DecidableEq, Repr

/-- The unread notifications of `uid`:
`Notification.objects.filter(user=uid).filter(is_read=False)`. -/
def notifUnread (db : List Notification) (uid : Nat) : List Notification :=
  (db.filter (fun n => n.user == uid)).filter (fun n => n.is_read == false)

/-- The row-level effect of `queryset.update(is_read=True)` restricted to the
acting user's unread notifications: rows matching both filters get
`is_read := true`, every other row is untouched. -/
def markFn (uid : Nat) (n : Notification) : Notification :=
  if n.user == uid && n.is_read == false then { n with is_read := true } else n

namespace NotificationViewSet

/-- `NotificationViewSet.get_queryset` (apps/accounts/views.py): users only
see their own notifications. -/
def get_queryset (db : List Notification) (actorId : Nat) : List Notification :=
  db.filter (fun n => n.user == actorId)

/-- `NotificationViewSet.perform_create` (apps/accounts/views.py): saves the
notification row, then attempts to send an email; the `send_mail` outcome is
a parameter, and its failure is caught (`except ... print`), so the method
returns successfully with the row persisted in either case. -/
def perform_create (send_mail : Except String Unit) (db : List Notification)
    (n : Notification) : Except String (List Notification) :=
  let db1 := db ++ [n]
  match send_mail with
  | Except.ok _ => Except.ok db1
  | Except.error _ => Except.ok db1

/-- `NotificationViewSet.mark_all_as_read` (apps/accounts/views.py): counts
the acting user's unread notifications, flips them all to read, and reports
the count. -/
def mark_all_as_read (db : List Notification) (actorId : Nat) :
    List Notification × Nat :=
  let notifications := (get_queryset db actorId).filter (fun n => n.is_read == false)
  let count := notifications.length
  (db.map (markFn actorId), count)

end NotificationViewSet

/-- C8: creating a notification persists the row and never propagates the
email error: whatever the transport outcome, `perform_create` returns
successfully with the new row appended. -/
theorem c8_notification_email_failure_tolerated (send_mail : Except String Unit)
    (db : List Notification) (n : Notification) :
    NotificationViewSet.perform_create send_mail db n = Except.ok (db ++ [n]) ∧
    ∀ l, NotificationViewSet.perform_create send_mail db n = Except.ok l → n ∈ l := by
  cases send_mail with
  | ok u =>
    refine ⟨rfl, ?_⟩
    intro l hl
    cases hl
    simp
  | error e =>
    refine ⟨rfl, ?_⟩
    intro l hl
    cases hl
    simp

theorem markFn_idem (uid : Nat) (n : Notification) :
    markFn uid (markFn uid n) = markFn uid n := by
  by_cases h : (n.user == uid && n.is_read == false) = true
  · have h1 : markFn uid n = { n with is_read := true } := by
      rw [markFn, if_pos h]
    rw [h1, markFn, if_neg (by simp)]
  · have h1 : markFn uid n = n := by
      rw [markFn, if_neg h]
    rw [h1]
    exact h1

theorem notifUnread_after_mark (uid : Nat) (db : List Notification) :
    notifUnread (db.map (markFn uid)) uid = [] := by
  rw [notifUnread, List.filter_eq_nil_iff]
  intro a ha
  obtain ⟨ham, hauser⟩ := List.mem_filter.mp ha
  obtain ⟨b, hb, hba⟩ := List.mem_map.mp ham
  by_cases h : (b.user == uid && b.is_read == false) = true
  · have hfn : markFn uid b = { b with is_read := true } := by
      rw [markFn, if_pos h]
    rw [hfn] at hba
    subst hba
    simp
  · have hfn : markFn uid b = b := by
      rw [markFn, if_neg h]
    rw [hfn] at hba
    subst hba
    simp only [beq_iff_eq] at hauser ⊢
    intro hread
    exact h (by simp [hauser, hread])

/-- C9: `mark_all_as_read` applied twice with no interleaving operation: the
first call reports exactly the number of the user's unread notifications and
leaves none unread; the second call reports 0 and leaves the table exactly as
the first call left it. -/
theorem c9_mark_all_as_read_twice (db : List Notification) (uid : Nat) :
    (NotificationViewSet.mark_all_as_read db uid).2 = (notifUnread db uid).length ∧
    notifUnread (NotificationViewSet.mark_all_as_read db uid).1 uid = [] ∧
    (NotificationViewSet.mark_all_as_read
        (NotificationViewSet.mark_all_as_read db uid).1 uid).2 = 0 ∧
    (NotificationViewSet.mark_all_as_read
        (NotificationViewSet.mark_all_as_read db uid).1 uid).1
      = (NotificationViewSet.mark_all_as_read db uid).1 := by
  refine ⟨rfl, notifUnread_after_mark uid db, ?_, ?_⟩
  · have h := notifUnread_after_mark uid db
    simp only [NotificationViewSet.mark_all_as_read, NotificationViewSet.get_queryset]
    simp only [NotificationViewSet.mark_all_as_read, NotificationViewSet.get_queryset,
      notifUnread] at h
    rw [h]
    rfl
  · simp only [NotificationViewSet.mark_all_as_read, List.map_map]
    exact List.map_congr_left (fun n _ => markFn_idem uid n)

/-- `ActivityLog` (apps/dashboard/models.py): actor (nullable), action kind,
target kind, target id (nullable), description, request metadata and a
timestamp (modelled as an integer; `Meta.ordering` is `-timestamp`). -/
structure ActivityLog where
  id : Nat
  user : Option Nat
  action_type : String
  content_type : String
  content_id : Option Nat
  description : String
  ip_address : Option String
  user_agent : Option String
  timestamp : Int
deriving DecidableEq, Repr

/-- `log_activity` (apps/dashboard/views.py): `ActivityLog.objects.create`
with the given fields — it only ever appends one new row (`newId` models the
database-assigned primary key, `now` the default `timezone.now` timestamp). -/
def log_activity (db : List ActivityLog) (newId : Nat) (user : Option Nat)
    (action_type content_type : String) (content_id : Option Nat)
    (description : String) (ip_address user_agent : Option String) (now : Int) :
    List ActivityLog :=
  db ++ [{ id := newId, user := user, action_type := action_type,
           content_type := content_type, content_id := content_id,
           description := description, ip_address := ip_address,
           user_agent := user_agent, timestamp := now }]

/-- The actions a DRF `ModelViewSet` routes (`patch` is the HTTP verb of the
partial-update action). -/
inductive ViewSetAction
  | list
  | retrieve
  | create
  | update
  | patch
  | destroy
deriving DecidableEq, Repr

/-- `IsAdminOrRHUser.has_permission` (apps/dashboard/views.py). -/
def IsAdminOrRHUser (role : Role) : Bool :=
  role = Role.ADMIN ∨ role = Role.RH

/-- The reverse-chronological order declared by `ActivityLog.Meta.ordering =
[-timestamp]`. -/
def tsDesc (a b : ActivityLog) : Prop := b.timestamp ≤ a.timestamp

instance : DecidableRel tsDesc :=
  fun a b => inferInstanceAs (Decidable (b.timestamp ≤ a.timestamp))

instance : IsTotal ActivityLog tsDesc :=
  ⟨fun a b => le_total b.timestamp a.timestamp⟩

instance : IsTrans ActivityLog tsDesc :=
  ⟨fun _ _ _ hab hbc => le_trans hbc hab⟩

namespace ActivityLogViewSet

/-- `ActivityLogViewSet` (apps/dashboard/views.py) subclasses
`viewsets.ModelViewSet` without restricting `http_method_names` or overriding
any handler to reject writes, so the router exposes all six actions —
including `update`, `partial_update` and `destroy` on stored entries. -/
def exposed_actions : List ViewSetAction :=
  [ViewSetAction.list, ViewSetAction.retrieve, ViewSetAction.create,
   ViewSetAction.update, ViewSetAction.patch, ViewSetAction.destroy]

/-- The unfiltered listing: the model ordering `-timestamp` applied to the
stored entries. -/
def list_logs (db : List ActivityLog) : List ActivityLog :=
  List.insertionSort tsDesc db

/-- The routed `destroy` action: permission check (`IsAdminOrRHUser`), object
lookup in the queryset, then `instance.delete()`. -/
def destroy (db : List ActivityLog) (actorRole : Role) (pk : Nat) :
    List ActivityLog × Nat :=
  if ¬ IsAdminOrRHUser actorRole then (db, 403)
  else
    match db.find? (fun e => e.id == pk) with
    | none => (db, 404)
    | some _ => (db.filter (fun e => ¬ e.id = pk), 204)

end ActivityLogViewSet

/-- A demo activity-log entry. -/
def demoLog : ActivityLog :=
  ⟨1, some 0, "LOGIN", "SYSTEM", none, "LOGIN SYSTEM", some "127.0.0.1",
   some "curl", 100⟩

/-- C4 counterexample: `destroy` is among the actions the activity-log
viewset exposes, and an ADMIN invoking it on a stored entry removes that
entry — a reachable transition of a defined flow that neither leaves the set
of entries unchanged nor adds to it.  Entries are therefore not append-only
at the exposed interface. -/
theorem c4_counterexample :
    ViewSetAction.destroy ∈ ActivityLogViewSet.exposed_actions ∧
    IsAdminOrRHUser Role.ADMIN = true ∧
    (ActivityLogViewSet.destroy [demoLog] Role.ADMIN 1).2 = 204 ∧
    demoLog ∉ (ActivityLogViewSet.destroy [demoLog] Role.ADMIN 1).1 := by
  decide

/-- C4 amended: the application's own logging path (`log_activity`, the only
producer, invoked by the middleware after a response is finalized) only
appends — every existing entry survives it and exactly one entry is added —
and the listing is reverse-chronological (sorted by descending timestamp, a
permutation of the stored entries); however, because the viewset is a
`ModelViewSet`, update and destroy endpoints on existing entries are exposed
to ADMIN/RH users, so append-only is not enforced at the API surface. -/
theorem c4_activity_log_append_and_order (db : List ActivityLog) (newId : Nat)
    (user : Option Nat) (action_type content_type : String)
    (content_id : Option Nat) (description : String)
    (ip_address user_agent : Option String) (now : Int) :
    (∀ e ∈ db, e ∈ log_activity db newId user action_type content_type
        content_id description ip_address user_agent now) ∧
    (log_activity db newId user action_type content_type content_id
        description ip_address user_agent now).length = db.length + 1 ∧
    (ActivityLogViewSet.list_logs db).Sorted tsDesc ∧
    (ActivityLogViewSet.list_logs db).Perm db ∧
    ViewSetAction.destroy ∈ ActivityLogViewSet.exposed_actions ∧
    ViewSetAction.update ∈ ActivityLogViewSet.exposed_actions := by
  refine ⟨?_, ?_, ?_, ?_, by decide, by decide⟩
  · intro e he
    rw [log_activity]
    exact List.mem_append_left _ he
  · rw [log_activity, List.length_append]
    rfl
  · exact List.sorted_insertionSort tsDesc db
  · exact List.perm_insertionSort tsDesc db

/-- Concrete instance of the amended C4: the demo entry survives a
`log_activity` append, and listing two entries orders them by descending
timestamp. -/
theorem c4_activity_log_append_and_order_witness :
    demoLog ∈ log_activity [demoLog] 2 none "LOGOUT" "SYSTEM" none
        "LOGOUT SYSTEM" none none 200 ∧
    (ActivityLogViewSet.list_logs [demoLog]).Sorted tsDesc :=
  ⟨(c4_activity_log_append_and_order [demoLog] 2 none "LOGOUT" "SYSTEM" none
      "LOGOUT SYSTEM" none none 200).1 demoLog (by decide),
   (c4_activity_log_append_and_order [demoLog] 2 none "LOGOUT" "SYSTEM" none
      "LOGOUT SYSTEM" none none 200).2.2.1⟩

/-- A demo notification row. -/
def demoNotif : Notification :=
  ⟨1, 1, "Votre attestation de travail est prête", 50, false⟩

/-- Concrete instance of C8: with a transport that fails deterministically,
the notification row is persisted and the call still returns successfully. -/
theorem c8_notification_email_failure_tolerated_witness :
    NotificationViewSet.perform_create (Except.error "smtp down") [] demoNotif
        = Except.ok [demoNotif] ∧
    demoNotif ∈ [demoNotif] :=
  ⟨(c8_notification_email_failure_tolerated (Except.error "smtp down") [] demoNotif).1,
   (c8_notification_email_failure_tolerated (Except.error "smtp down") [] demoNotif).2
     [demoNotif]
     (c8_notification_email_failure_tolerated (Except.error "smtp down") [] demoNotif).1⟩
